import Mathlib

/-!
Verification of the `near-testing` library (files `near_testing.py` and
`near_testing/sandbox.py`) against its natural-language specification.

The Python source is shallowly embedded: pure functions become Lean
functions, stateful methods become explicit state-passing functions,
external effects (filesystem, child processes, the stdlib JSON parser)
become explicit oracle parameters, and Python exceptions become
`Except` / explicit error components of the return value.
-/

namespace NearTesting

/-! ## JSON-like values

Python's `json.loads` produces arbitrarily nested values; we embed them as
`JVal`.  A top-level JSON object is represented by its field list
(Python `dict`s preserve insertion order and have unique keys). -/

inductive JVal where
  | s (v : String)
  | n (v : Int)
  | b (v : Bool)
  | null
  | arr (elems : List JVal)
  | obj (fields : List (String × JVal))

/-- First-match association lookup: `d[key]` / `key in d` on a Python dict
represented as an ordered field list. -/
def jlookup (d : List (String × JVal)) (key : String) : Option JVal :=
  match d with
  | [] => none
  | (k, v) :: rest => if k == key then some v else jlookup rest key

/-- View a JSON value as an object.  The Python source applies `.get` to
values it assumes are dicts; on a non-dict Python would raise
`AttributeError`, a corner the source never handles.  We totalise it to the
empty object; no theorem below depends on that corner. -/
def asObj : JVal → List (String × JVal)
  | .obj fields => fields
  | _ => []

/-- View a JSON value as a string, totalising non-strings to `""`. -/
def asStr : JVal → String
  | .s v => v
  | _ => ""

/-- The string elements of a JSON array (`outcome.get("logs", [])` is fed to
`logs.extend`; the source only ever receives lists of strings there). -/
def strList : JVal → List String
  | .arr xs => xs.filterMap (fun v => match v with | .s t => some t | _ => none)
  | _ => []

/-! ## String helpers mirroring the Python primitives used by the source

All scanning is done by structural recursion on the underlying character
lists, so every definition evaluates by kernel reduction on concrete
inputs. -/

/-- Does `l` start with `p`? (`str.startswith`). -/
def startsWithL : List Char → List Char → Bool
  | _, [] => true
  | [], _ :: _ => false
  | c :: cs, p :: ps => c == p && startsWithL cs ps

/-- Python's `needle in hay` substring test. -/
def containsSubL : List Char → List Char → Bool
  | [], needle => needle.isEmpty
  | c :: rest, needle => startsWithL (c :: rest) needle || containsSubL rest needle

/-- Split at every newline character (the `combined` text is scanned with
`str.splitlines`; for text whose only line separators are `"\n"` this
matches it up to one trailing empty piece, which every branch of the loop
ignores). -/
def splitNl : List Char → List (List Char)
  | [] => [[]]
  | c :: rest =>
    match splitNl rest with
    | [] => [[]]
    | l :: ls => if c == '\n' then [] :: l :: ls else (c :: l) :: ls

/-- Accumulating worker for whitespace splitting. -/
def splitWsAux : List Char → List Char → List (List Char)
  | [], acc => [acc.reverse]
  | c :: rest, acc =>
    if c.isWhitespace then acc.reverse :: splitWsAux rest []
    else splitWsAux rest (c :: acc)

/-- `str.startswith` on strings. -/
def pyStartsWith (s p : String) : Bool :=
  startsWithL s.data p.data

/-- `needle in hay` on strings. -/
def containsSubstr (hay needle : String) : Bool :=
  containsSubL hay.data needle.data

/-- `str.strip()`: drop whitespace from both ends. -/
def pyStrip (s : String) : String :=
  ⟨((s.data.dropWhile Char.isWhitespace).reverse.dropWhile
      Char.isWhitespace).reverse⟩

/-- `str.lower()` (the source only lowercases ASCII CLI output). -/
def pyLower (s : String) : String :=
  ⟨s.data.map Char.toLower⟩

/-- `str.splitlines()` of the combined text (see `splitNl`). -/
def splitLines (s : String) : List String :=
  (splitNl s.data).map (fun l => (⟨l⟩ : String))

/-- Python's `str.split()` with no arguments: split on whitespace runs and
drop empty pieces. -/
def pySplitWs (s : String) : List String :=
  ((splitWsAux s.data []).filter (fun p => !p.isEmpty)).map
    (fun l => (⟨l⟩ : String))

/-- `s[n:]` for the event-marker remainder. -/
def pyDrop (s : String) (n : ℕ) : String :=
  ⟨s.data.drop n⟩

/-- `len(part) == 44 and part.isalnum()` (base58 transaction hashes are
ASCII, so ASCII alphanumeric suffices here). -/
def is44Alnum (part : String) : Bool :=
  part.data.length == 44 && part.data.all Char.isAlphanum

/-- Python's `a or b` on strings: `a` unless it is empty (falsy). -/
def pyOr (a b : String) : String :=
  if a = "" then b else a

/-! ## TransactionResult (`near_testing.py` lines 79-106,
`sandbox.py` lines 44-71) -/

structure TransactionResult where
  transaction_hash : String
  status : String
  logs : List String
  receipts : List JVal
  raw : List (String × JVal)

/-- `TransactionResult.succeeded`. -/
def TransactionResult.succeeded (r : TransactionResult) : Bool :=
  r.status == "success"

/-- The event-marker prefix of NEP-297 log lines; `"EVENT_JSON:"` has
length 11, so Python's `log_line[len("EVENT_JSON:"):]` is `drop 11`. -/
def eventMarker : String := "EVENT_JSON:"

/-- The loop body of `TransactionResult.events`: walk the log lines in
order, and for each line carrying the event marker try to JSON-decode the
remainder, appending the decoded value and silently skipping decode
failures.  `decode` is the `json.loads` oracle. -/
def extractEvents (decode : String → Option JVal) (logs : List String) :
    List JVal :=
  logs.foldl
    (fun acc logLine =>
      if pyStartsWith logLine eventMarker then
        match decode (pyDrop logLine 11) with
        | some e => acc ++ [e]
        | none => acc
      else acc)
    []

/-- `TransactionResult.events` is computed from `logs` alone. -/
def TransactionResult.events (decode : String → Option JVal)
    (r : TransactionResult) : List JVal :=
  extractEvents decode r.logs

/-! ### Lemmas about `extractEvents` -/

theorem extractEvents_go (decode : String → Option JVal)
    (logs : List String) (acc : List JVal) :
    logs.foldl
      (fun acc logLine =>
        if pyStartsWith logLine eventMarker then
          match decode (pyDrop logLine 11) with
          | some e => acc ++ [e]
          | none => acc
        else acc)
      acc
    = acc ++ logs.filterMap
        (fun l => if pyStartsWith l eventMarker then decode (pyDrop l 11)
                  else none) := by
  induction logs generalizing acc with
  | nil => simp
  | cons hd tl ih =>
    simp only [List.foldl_cons, List.filterMap_cons]
    by_cases h : pyStartsWith hd eventMarker
    · simp only [h, if_true]
      cases hdec : decode (pyDrop hd 11) with
      | none => simp [ih]
      | some e => simp [ih]
    · simp [h, ih]

theorem extractEvents_eq_filterMap (decode : String → Option JVal)
    (logs : List String) :
    extractEvents decode logs
    = logs.filterMap
        (fun l => if pyStartsWith l eventMarker then decode (pyDrop l 11)
                  else none) := by
  simpa [extractEvents] using extractEvents_go decode logs []

/-! ## MockRPC (`near_testing.py` lines 113-368)

The registry is the mutable `self._responses` list, the call log is
`self._calls`.  Registered results and matcher/param values are `Any` in
Python; we embed them with two type parameters: `V` for the values stored
in matcher/params dicts (compared with `!=` during matching) and `R` for
the opaque registered result (never inspected by `query`). -/

/-- One registered response: the dict appended by `add_response`
(`near_testing.py` lines 173-178). -/
structure MockEntry (V R : Type) where
  method : String
  result : R
  matcher : Option (List (String × V))
  error : Option (List (String × V))

/-- One element of `self._calls` (`near_testing.py` line 252). -/
structure CallRecord (V : Type) where
  method : String
  params : List (String × V)

/-- The mutable state of a `MockRPC` instance. -/
structure MockRPC (V R : Type) where
  responses : List (MockEntry V R)
  calls : List (CallRecord V)

/-- First-match lookup in a `V`-valued dict. -/
def pvLookup {V : Type} (d : List (String × V)) (key : String) : Option V :=
  match d with
  | [] => none
  | (k, v) :: rest => if k == key then some v else pvLookup rest key

/-- `_is_subset(subset, superset)` (`near_testing.py` lines 974-979):
every key of `subset` exists in `superset` with an equal value. -/
def is_subset {V : Type} [BEq V] (sub sup : List (String × V)) : Bool :=
  sub.all (fun kv =>
    match pvLookup sup kv.1 with
    | some v => v == kv.2
    | none => false)

/-- Python truthiness of the optional dicts stored in an entry:
`None` and `{}` are falsy (`if resp["match"]:` / `if resp["error"]:`). -/
def truthyDict {V : Type} : Option (List (String × V)) → Bool
  | none => false
  | some d => !d.isEmpty

/-- The outcome of `MockRPC.query`: a returned result, a raised
`NearTestingError` built from the matched entry's error dict (carrying its
`message` value, `none` standing for Python's `'unknown'` default), or the
raised "no mock response registered" error, which carries the requested
method and params verbatim. -/
inductive QueryOutcome (V R : Type) where
  | ok (result : R)
  | mockError (message : Option V)
  | noMock (method : String) (params : List (String × V))
  deriving DecidableEq

/-- The matching loop of `MockRPC.query` (`near_testing.py` lines
254-268), scanning registered entries in registration order. -/
def queryScan {V R : Type} [BEq V] (method : String)
    (params : List (String × V)) :
    List (MockEntry V R) → QueryOutcome V R
  | [] => .noMock method params
  | e :: rest =>
    if e.method != method then queryScan method params rest
    else if truthyDict e.matcher && !is_subset (e.matcher.getD []) params then
      queryScan method params rest
    else if truthyDict e.error then .mockError (pvLookup (e.error.getD []) "message")
    else .ok e.result

/-- `MockRPC.query` (`near_testing.py` lines 246-268): record the call
first (unconditionally), then scan the registry.  The new state is
returned alongside the outcome because the Python method mutates
`self._calls` before it can raise. -/
def MockRPC.query {V R : Type} [BEq V] (st : MockRPC V R) (method : String)
    (params : List (String × V)) : MockRPC V R × QueryOutcome V R :=
  ({ st with calls := st.calls ++ [⟨method, params⟩] },
   queryScan method params st.responses)

/-- `MockRPC.add_response` (`near_testing.py` lines 151-179): append one
entry to the registry. -/
def MockRPC.add_response {V R : Type} (st : MockRPC V R) (method : String)
    (result : R) (matcher error : Option (List (String × V))) :
    MockRPC V R :=
  { st with responses := st.responses ++ [⟨method, result, matcher, error⟩] }

/-- Run a sequence of `query` calls, threading the state; used to state the
call-log invariant for `n` consecutive dispatch attempts. -/
def runQueries {V R : Type} [BEq V] (st : MockRPC V R) :
    List (String × List (String × V)) → MockRPC V R
  | [] => st
  | a :: rest => runQueries (MockRPC.query st a.1 a.2).1 rest

/-! ## IEEE-754 double model for `add_account`

`add_account` computes `str(int(balance_near * 1e24))`
(`near_testing.py` line 204).  CPython floats are IEEE-754 binary64
values; we model them as the exact rationals they denote.  `roundDouble`
is round-to-nearest, ties-to-even at 53 significant bits (exponent range
unbounded: the magnitudes involved are nowhere near overflow or
subnormals). -/

/-- A finite IEEE-754 binary64 value is a dyadic rational
`mantissa * 2 ^ exponent`; we model floats as dyadic numbers (exponent
range unbounded: the magnitudes involved are nowhere near overflow or
subnormals, and no NaN/infinity arises). -/
structure Dyadic where
  mantissa : ℤ
  exponent : ℤ

/-- Number of bits of `n` (`0` for `0`, so `2 ^ (bits - 1) ≤ n < 2 ^ bits`),
fuel-based structural recursion. -/
def bitlenF : ℕ → ℕ → ℕ
  | 0, _ => 0
  | fuel + 1, n => if n = 0 then 0 else bitlenF fuel (n / 2) + 1

def bitlen (n : ℕ) : ℕ := bitlenF n n

/-- `n / 2 ^ k` rounded to the nearest integer, ties to even. -/
def rshiftRNE (n : ℕ) (k : ℕ) : ℕ :=
  let q := n / 2 ^ k
  let r := n % 2 ^ k
  let half := 2 ^ k / 2
  if k = 0 then n
  else if r < half then q
  else if half < r then q + 1
  else if q % 2 = 0 then q else q + 1

/-- Round a dyadic (exact) value to 53 significant bits, ties to even:
this is exactly IEEE-754 binary64 rounding of an exact product, far from
overflow and underflow. -/
def roundDouble (d : Dyadic) : Dyadic :=
  let n := d.mantissa.natAbs
  let b := bitlen n
  if b ≤ 53 then d
  else
    let m := rshiftRNE n (b - 53)
    ⟨if d.mantissa < 0 then -(m : ℤ) else (m : ℤ), d.exponent + (b - 53 : ℕ)⟩

/-- Multiplication of two doubles: the exact product, rounded. -/
def floatMul (a b : Dyadic) : Dyadic :=
  roundDouble ⟨a.mantissa * b.mantissa, a.exponent + b.exponent⟩

/-- The value of the Python float literal `1e24`: the decimal value
`10 ^ 24`, rounded to binary64. -/
def float1e24 : Dyadic := roundDouble ⟨1000000000000000000000000, 0⟩

/-- Python `int()` on a float: truncate toward zero. -/
def pyTrunc (d : Dyadic) : ℤ :=
  if 0 ≤ d.exponent then d.mantissa * (2 ^ d.exponent.toNat : ℕ)
  else
    let q := d.mantissa.natAbs / 2 ^ (-d.exponent).toNat
    if d.mantissa < 0 then -(q : ℤ) else (q : ℤ)

/-- `str(int(balance_near * 1e24))` (`near_testing.py` line 204): the
float product is rounded to binary64, truncated to an integer, and
rendered in decimal.  `balance_near` is itself a float, i.e. a dyadic. -/
def yoctoAmount (balance_near : Dyadic) : String :=
  toString (pyTrunc (floatMul balance_near float1e24))

/-- The Python values that appear in `add_account`'s dicts: strings and
ints. -/
inductive PyVal where
  | s (v : String)
  | i (v : ℤ)
  deriving DecidableEq

/-- `MockRPC.add_account` (`near_testing.py` lines 181-216): register a
mock `view_account` response whose `amount` is the yoctoNEAR conversion of
`balance_near`. -/
def MockRPC.add_account (st : MockRPC PyVal (List (String × PyVal)))
    (account_id : String) (balance_near : Dyadic) (storage_usage : ℤ)
    (code_hash : String) (locked : String) :
    MockRPC PyVal (List (String × PyVal)) :=
  let amount := yoctoAmount balance_near
  st.add_response "query"
    [("amount", .s amount),
     ("locked", .s locked),
     ("code_hash", .s code_hash),
     ("storage_usage", .i storage_usage),
     ("block_height", .i 100000000),
     ("block_hash", .s "mock_block_hash")]
    (some [("request_type", .s "view_account"), ("account_id", .s account_id)])
    none

/-! ## Sandbox lifecycle: `stop` (`sandbox.py` lines 137-150,
`near_testing.py` lines 417-430)

The child process and the temporary directory are the two owned
resources.  What `wait` does is an environment behaviour, supplied as an
oracle. -/

/-- Behaviour of the child process under `terminate`/`kill`:
either the graceful `wait(timeout=10)` returns, or it times out and the
forced `kill` + `wait(timeout=5)` returns, or that second wait times out
too (raising `subprocess.TimeoutExpired`). -/
inductive WaitBehavior where
  | waitOk
  | killOk
  | killTimeout
  deriving DecidableEq

/-- The resource-relevant state of a sandbox instance: `self._process`
and `self._tmp_dir`. -/
structure SandboxState where
  process : Option Unit
  tmpDir : Option Unit
  deriving DecidableEq

/-- The exception `stop` can let escape. -/
inductive StopError where
  | timeoutExpired
  deriving DecidableEq

/-- `NearSandbox.stop` / `SandboxContext.stop`: terminate the process if
any (graceful wait, then forced kill), then clean up the temporary
directory if any.  Returns the post-state together with the escaped
exception, if one was raised: when the forced kill's `wait(timeout=5)`
also times out, `subprocess.TimeoutExpired` propagates out of `stop`
before `self._process = None` and before the `self._tmp_dir` cleanup
block, so both fields are left untouched. -/
def NearSandbox.stop (b : WaitBehavior) (st : SandboxState) :
    SandboxState × Option StopError :=
  match st.process with
  | none => (⟨none, none⟩, none)
  | some _ =>
    match b with
    | .waitOk => (⟨none, none⟩, none)
    | .killOk => (⟨none, none⟩, none)
    | .killTimeout => (st, some .timeoutExpired)

/-! ## CLI environment overlay: `run_near_cli` (`sandbox.py` lines
166-193; the single-file variant at `near_testing.py` lines 436-456 has
no `env_extra` parameter)

The environment is `os.environ.copy()` (the `base` parameter) with the
three computed variables assigned, then `env.update(env_extra)` applied
when `env_extra` is truthy. -/

/-- Python dict assignment `env[k] = v` on an insertion-ordered dict
(keys are unique): replace the binding in place if the key is present,
append it otherwise. -/
def dset : List (String × String) → String → String → List (String × String)
  | [], k, v => [(k, v)]
  | kv :: rest, k, v =>
    if kv.1 = k then (k, v) :: rest else kv :: dset rest k v

/-- Lookup in the ordered-dict representation (keys are unique, so the
first binding is the binding). -/
def denvGet : List (String × String) → String → Option String
  | [], _ => none
  | kv :: rest, k => if kv.1 = k then some kv.2 else denvGet rest k

/-- The last binding of `k` in an association list — the one Python's
`dict(...)`/`update(...)` semantics retains. -/
def lastAssoc : List (String × String) → String → Option String
  | [], _ => none
  | kv :: rest, k =>
    match lastAssoc rest k with
    | some v => some v
    | none => if kv.1 = k then some kv.2 else none

/-- Python `env.update(extra)`: assign every pair of `extra` in order. -/
def dupdate (env extra : List (String × String)) : List (String × String) :=
  extra.foldl (fun e kv => dset e kv.1 kv.2) env

/-- The environment `run_near_cli` passes to `subprocess.run`
(`sandbox.py` lines 179-184).  `env_extra = none` is Python `None`; an
empty dict is also falsy and skips the update. -/
def run_near_cli_env (base : List (String × String))
    (rpc_url home_dir : String)
    (env_extra : Option (List (String × String))) :
    List (String × String) :=
  let env := dset base "NEAR_ENV" "localnet"
  let env := dset env "NEAR_CLI_LOCALNET_RPC_SERVER_URL" rpc_url
  let env := dset env "NEAR_HOME" home_dir
  match env_extra with
  | none => env
  | some extra => if extra.isEmpty then env else dupdate env extra

/-! ## `_parse_cli_output` (`near_testing.py` lines 982-1030,
`sandbox.py` lines 708-762)

`jp` is the `json.loads` oracle for lines starting with `{`; a JSON text
that starts with `{` parses (if at all) to an object, so the oracle
returns the object's field list. -/

/-- The intermediate state of the line-scanning loop. -/
structure ParseState where
  tx_hash : String
  status : String
  logs : List String
  raw : List (String × JVal)

/-- One iteration of the `for line in combined.splitlines()` loop. -/
def parseLine (jp : String → Option (List (String × JVal)))
    (st : ParseState) (line : String) : ParseState :=
  let stripped := pyStrip line
  let st :=
    if containsSubstr stripped "Transaction Id"
        || containsSubstr stripped "transaction_hash" then
      match (pySplitWs stripped).find? is44Alnum with
      | some part => { st with tx_hash := part }
      | none => st
    else st
  let st :=
    if pyStartsWith stripped "Log [" || pyStartsWith stripped "Receipt:" then
      { st with logs := st.logs ++ [stripped] }
    else st
  if pyStartsWith stripped "\x7b" then
    match jp stripped with
    | some parsed =>
      let st := { st with raw := parsed }
      let st :=
        match jlookup parsed "transaction_outcome" with
        | some toVal =>
          let outcome := (jlookup (asObj toVal) "outcome").getD (.obj [])
          let txh :=
            if st.tx_hash ≠ "" then st.tx_hash
            else asStr ((jlookup
              (asObj ((jlookup parsed "transaction").getD (.obj [])))
              "hash").getD (.s ""))
          { st with
            tx_hash := txh,
            logs := st.logs
              ++ strList ((jlookup (asObj outcome) "logs").getD (.arr [])) }
        | none => st
      match jlookup parsed "status" with
      | some (.obj sfields) =>
        if (jlookup sfields "Failure").isSome then
          { st with status := "failure" }
        else st
      | _ => st
    | none => st
  else st

/-- The fixed failure-indicator keywords. -/
def failureIndicators : List String := ["error", "failure", "failed", "panic"]

/-- `_parse_cli_output(stdout, stderr)`: scan the combined text line by
line, then apply the keyword fallback (failure keyword present and no
"success" anywhere forces `status = "failure"`). -/
def parse_cli_output (jp : String → Option (List (String × JVal)))
    (stdout stderr : String) : TransactionResult :=
  let combined := stdout ++ "\n" ++ stderr
  let st := (splitLines combined).foldl (parseLine jp)
    ⟨"", "success", [], []⟩
  let lower := pyLower combined
  let status :=
    if (failureIndicators.any (fun w => containsSubstr lower w))
        && !containsSubstr lower "success" then
      "failure"
    else st.status
  ⟨st.tx_hash, status, st.logs, [], st.raw⟩

/-! ## `call_contract` (`near_testing.py` lines 793-836, `sandbox.py`
lines 497-545) and `ContractDeployer.deploy` (`near_testing.py` lines
614-678, `sandbox.py` lines 307-374)

External command outcomes are `subprocess.CompletedProcess` oracles. -/

/-- The observable outcome of `subprocess.run`. -/
structure CompletedProcess where
  returncode : ℤ
  stdout : String
  stderr : String

/-- `call_contract`: run the signed call, parse its output, and force
`status = "failure"` when the exit code is non-zero. -/
def call_contract (jp : String → Option (List (String × JVal)))
    (res : CompletedProcess) : TransactionResult :=
  let tx_result := parse_cli_output jp res.stdout res.stderr
  if res.returncode ≠ 0 then { tx_result with status := "failure" }
  else tx_result

/-- The `ContractDeployError` variants `deploy` can raise, carrying the
formatted command output (`stderr or stdout`). -/
inductive DeployError where
  | wasmNotFound
  | deployFailed (output : String)
  | initFailed (method : String) (output : String)

/-- Python truthiness of the optional `init_method` string:
`None` and `""` are falsy. -/
def truthyStr : Option String → Bool
  | none => false
  | some s => !(s == "")

/-- `ContractDeployer.deploy`: check the artifact exists, run the deploy
command (raising on non-zero exit), and, when an init method is given,
run the init call, raising on its non-zero exit and otherwise returning
the parsed init result instead of the deploy step's parsed result.
`wasmExists` is the filesystem oracle; `deployRes`/`initRes` are the
oracles for the two external commands (the argument lists built from
`_account_id`, `_init_args`, `_init_deposit` and `_init_gas` are consumed
by the external command, which the oracle already reflects). -/
def ContractDeployer.deploy (jp : String → Option (List (String × JVal)))
    (wasmExists : Bool) (_account_id : String)
    (init_method : Option String) (_init_args : List (String × JVal))
    (_init_deposit _init_gas : String)
    (deployRes initRes : CompletedProcess) :
    Except DeployError TransactionResult :=
  if !wasmExists then .error .wasmNotFound
  else if deployRes.returncode ≠ 0 then
    .error (.deployFailed (pyOr deployRes.stderr deployRes.stdout))
  else
    let deploy_result := parse_cli_output jp deployRes.stdout deployRes.stderr
    if truthyStr init_method then
      if initRes.returncode ≠ 0 then
        .error (.initFailed (init_method.getD "")
          (pyOr initRes.stderr initRes.stdout))
      else .ok (parse_cli_output jp initRes.stdout initRes.stderr)
    else .ok deploy_result

/-! ## Helper lemmas shared by the claim theorems -/

theorem runQueries_calls {V R : Type} [BEq V] (st : MockRPC V R)
    (attempts : List (String × List (String × V))) :
    (runQueries st attempts).calls
      = st.calls ++ attempts.map (fun a => (⟨a.1, a.2⟩ : CallRecord V)) := by
  induction attempts generalizing st with
  | nil => simp [runQueries]
  | cons a rest ih =>
    simp [runQueries, MockRPC.query, ih]

theorem filterMap_length_countP {α β : Type} (f : α → Option β)
    (l : List α) :
    (l.filterMap f).length = l.countP (fun a => (f a).isSome) := by
  induction l with
  | nil => simp
  | cons hd tl ih =>
    cases h : f hd with
    | none => simp [List.filterMap_cons, h, List.countP_cons, ih]
    | some b => simp [List.filterMap_cons, h, List.countP_cons, ih]

/-! ## Claim theorems -/

/-- **C3 counterexample.** The claim says `stop()` releases the temporary
directory on every exit path, including when the forced-kill wait also
times out.  On a started sandbox whose process survives both waits,
`stop` lets `subprocess.TimeoutExpired` escape and the temporary
directory is *not* released (there is no `try/finally` around the cleanup
in `sandbox.py` lines 139-150). -/
theorem c3_stop_release_counterexample :
    (NearSandbox.stop .killTimeout ⟨some (), some ()⟩).2
        = some .timeoutExpired
    ∧ (NearSandbox.stop .killTimeout ⟨some (), some ()⟩).1.tmpDir
        = some () := by
  decide

/-- **C3 (amended).** `stop()` releases the temporary directory on every
exit path on which termination does not raise — graceful wait, forced
kill within its wait, and the no-process paths; when the forced kill's
wait also times out, the exception propagates and the directory is left
unreleased. -/
theorem c3_stop_release_amended (b : WaitBehavior) (st : SandboxState)
    (h : (NearSandbox.stop b st).2 = none) :
    (NearSandbox.stop b st).1.tmpDir = none := by
  obtain ⟨p, t⟩ := st
  cases p <;> cases b <;> simp [NearSandbox.stop] at h ⊢

/-- Witness for C3 (amended) at a started sandbox whose graceful wait
succeeds. -/
theorem c3_stop_release_amended_witness :
    (NearSandbox.stop .waitOk ⟨some (), some ()⟩).2 = none
    ∧ (NearSandbox.stop .waitOk ⟨some (), some ()⟩).1.tmpDir = none :=
  ⟨by decide, c3_stop_release_amended .waitOk ⟨some (), some ()⟩ (by decide)⟩

theorem stop_ok_state (b : WaitBehavior) (st st2 : SandboxState)
    (h : NearSandbox.stop b st = (st2, none)) :
    st2 = ⟨none, none⟩ := by
  obtain ⟨p, t⟩ := st
  cases p <;> cases b <;> simp only [NearSandbox.stop] at h
  all_goals first
    | (injection h with h1 h2; exact h1.symm)
    | (injection h with h1 h2; cases h2)

/-- **C9.** `stop()` is idempotent: on a sandbox with no process handle
(never started, or already stopped) it does not raise and leaves both
resources cleared, and whenever a `stop` completes without raising, a
second `stop` (under any wait behaviour) raises nothing and leaves the
state exactly as the first left it. -/
theorem c9_stop_idempotent (b b2 : WaitBehavior) (st : SandboxState) :
    (st.process = none →
        NearSandbox.stop b st = (⟨none, none⟩, none))
    ∧ (∀ st2, NearSandbox.stop b st = (st2, none) →
        NearSandbox.stop b2 st2 = (st2, none)) := by
  constructor
  · intro h
    obtain ⟨p, t⟩ := st
    simp only at h
    subst h
    rfl
  · intro st2 h
    rw [stop_ok_state b st st2 h]
    rfl

/-- Witness for C9 at a never-started sandbox (which still owns its
temporary directory) followed by a second stop. -/
theorem c9_stop_idempotent_witness :
    NearSandbox.stop .waitOk ⟨none, some ()⟩ = (⟨none, none⟩, none)
    ∧ NearSandbox.stop .killTimeout ⟨none, none⟩ = (⟨none, none⟩, none) :=
  ⟨(c9_stop_idempotent .waitOk .killTimeout ⟨none, some ()⟩).1 rfl,
   (c9_stop_idempotent .waitOk .killTimeout ⟨none, some ()⟩).2
     ⟨none, none⟩ (by decide)⟩

/-- **C6.** Whenever the external command exits non-zero, `call_contract`
returns a `TransactionResult` with `status = "failure"`, whatever the
text-parsing heuristics over stdout/stderr would have produced. -/
theorem c6_exit_code_forces_failure
    (jp : String → Option (List (String × JVal)))
    (res : CompletedProcess) (h : res.returncode ≠ 0) :
    (call_contract jp res).status = "failure" := by
  simp [call_contract, h]

/-- Witness for C6 on output whose text heuristic alone would read as
success (it contains "success" and no failure keyword). -/
theorem c6_exit_code_forces_failure_witness :
    (parse_cli_output (fun _ => none) "success" "").status = "success"
    ∧ (call_contract (fun _ => none) ⟨1, "success", ""⟩).status
        = "failure" :=
  ⟨by decide,
   c6_exit_code_forces_failure (fun _ => none) ⟨1, "success", ""⟩
     (by decide)⟩

/-- **C5.** Every `query` (dispatch) appends exactly one `CallRecord`
`{method, params}` to the call log — unconditionally, before the registry
is scanned, hence regardless of the outcome — and a sequence of `n`
dispatch attempts extends the log by exactly those `n` records in attempt
order. -/
theorem c5_call_log {V R : Type} [BEq V] (st : MockRPC V R)
    (method : String) (params : List (String × V))
    (attempts : List (String × List (String × V))) :
    (MockRPC.query st method params).1.calls
        = st.calls ++ [⟨method, params⟩]
    ∧ (runQueries st attempts).calls
        = st.calls ++ attempts.map (fun a => (⟨a.1, a.2⟩ : CallRecord V)) :=
  ⟨rfl, runQueries_calls st attempts⟩

/-- **C7.** `events` is a function of `logs` alone (recomputing it cannot
mutate the result — the embedding is pure and the value depends only on
the `logs` field): it is empty when no log line carries the
`EVENT_JSON:` marker, and in general it is exactly the in-order sequence
of successfully decoded marker-line remainders, whose length counts the
well-formed marked lines, the malformed ones being skipped silently. -/
theorem c7_events_of_logs (decode : String → Option JVal)
    (r : TransactionResult) :
    ((∀ l ∈ r.logs, pyStartsWith l eventMarker = false) →
        r.events decode = [])
    ∧ r.events decode
        = r.logs.filterMap
            (fun l => if pyStartsWith l eventMarker then decode (pyDrop l 11)
                      else none)
    ∧ (∀ r2 : TransactionResult, r.logs = r2.logs →
        r.events decode = r2.events decode)
    ∧ (r.events decode).length
        = r.logs.countP
            (fun l => pyStartsWith l eventMarker
              && (decode (pyDrop l 11)).isSome) := by
  refine ⟨?_, extractEvents_eq_filterMap decode r.logs, ?_, ?_⟩
  · intro h
    rw [TransactionResult.events, extractEvents_eq_filterMap]
    apply List.filterMap_eq_nil_iff.mpr
    intro l hl
    simp [h l hl]
  · intro r2 hlogs
    simp [TransactionResult.events, hlogs]
  · rw [TransactionResult.events, extractEvents_eq_filterMap,
      filterMap_length_countP]
    apply List.countP_congr
    intro l _
    by_cases h : pyStartsWith l eventMarker <;> simp [h]

/-- Witness for C7: a result whose logs carry no event marker has no
events. -/
theorem c7_events_of_logs_witness :
    TransactionResult.events (fun _ => none)
      ⟨"", "success", ["plain log line"], [], []⟩ = [] :=
  (c7_events_of_logs (fun _ => none)
    ⟨"", "success", ["plain log line"], [], []⟩).1 (by decide)

theorem denvGet_dset (env : List (String × String)) (k v k2 : String) :
    denvGet (dset env k v) k2
      = if k2 = k then some v else denvGet env k2 := by
  induction env with
  | nil =>
    by_cases h : k2 = k
    · subst h; simp [dset, denvGet]
    · have hnk : ¬(k = k2) := fun hh => h hh.symm
      simp [dset, denvGet, h, hnk]
  | cons hd tl ih =>
    by_cases hhd : hd.1 = k
    · by_cases h : k2 = k
      · subst h; simp [dset, denvGet, hhd]
      · have hnk : ¬(k = k2) := fun hh => h hh.symm
        simp [dset, denvGet, hhd, h, hnk]
    · by_cases h : k2 = k
      · subst h
        simp [dset, denvGet, hhd, ih]
      · simp [dset, denvGet, hhd, ih, h]

theorem denvGet_dupdate (extra env : List (String × String)) (k : String) :
    denvGet (dupdate env extra) k
      = match lastAssoc extra k with
        | some v => some v
        | none => denvGet env k := by
  induction extra generalizing env with
  | nil => simp [dupdate, lastAssoc]
  | cons kv rest ih =>
    have hstep : dupdate env (kv :: rest) = dupdate (dset env kv.1 kv.2) rest := rfl
    rw [hstep, ih]
    cases hl : lastAssoc rest k with
    | some w => simp [lastAssoc, hl]
    | none =>
      simp only [lastAssoc, hl, denvGet_dset]
      by_cases h : kv.1 = k
      · simp [h]
      · have hnk : ¬(k = kv.1) := fun hh => h hh.symm
        simp [h, hnk]

/-- **C2 counterexample.** The claim says the computed values for the
network mode, RPC URL and home directory are authoritative over caller
overrides.  In `NearSandbox.run_near_cli` (`sandbox.py` lines 179-184)
`env.update(env_extra)` runs *after* the three assignments, so a caller
override of `NEAR_ENV` wins. -/
theorem c2_env_authoritative_counterexample :
    denvGet
      (run_near_cli_env [] "http://localhost:3030" "/tmp/near-home"
        (some [("NEAR_ENV", "mainnet")]))
      "NEAR_ENV" = some "mainnet"
    ∧ (some "mainnet" : Option String) ≠ some "localnet" := by
  decide

/-- **C2 (amended).** The environment passed to the external command maps
`NEAR_ENV` to `"localnet"`, the RPC-URL variable to this sandbox's
`rpc_url` and `NEAR_HOME` to this sandbox's `home_dir` whenever the
caller's override mapping does not bind that key (in particular whenever
it is absent or empty); when the override mapping does bind one of those
keys, the override's (last) binding wins — the three computed values are
defaults, not authoritative. -/
theorem c2_env_amended (base : List (String × String))
    (rpc_url home_dir : String)
    (env_extra : Option (List (String × String))) (k v : String)
    (hk : (k, v) ∈ [("NEAR_ENV", "localnet"),
                    ("NEAR_CLI_LOCALNET_RPC_SERVER_URL", rpc_url),
                    ("NEAR_HOME", home_dir)]) :
    denvGet (run_near_cli_env base rpc_url home_dir env_extra) k
      = match env_extra with
        | none => some v
        | some extra =>
          match lastAssoc extra k with
          | some w => some w
          | none => some v := by
  have hbase : denvGet
      (dset (dset (dset base "NEAR_ENV" "localnet")
          "NEAR_CLI_LOCALNET_RPC_SERVER_URL" rpc_url)
        "NEAR_HOME" home_dir) k = some v := by
    simp only [List.mem_cons, List.not_mem_nil, or_false] at hk
    rcases hk with h | h | h <;>
      (injection h with h1 h2; subst h1; subst h2) <;>
      simp [denvGet_dset]
  cases env_extra with
  | none => exact hbase
  | some extra =>
    cases extra with
    | nil =>
      simpa [run_near_cli_env, lastAssoc] using hbase
    | cons kv rest =>
      show denvGet (dupdate _ (kv :: rest)) k
        = match lastAssoc (kv :: rest) k with
          | some w => some w
          | none => some v
      rw [denvGet_dupdate]
      cases hl : lastAssoc (kv :: rest) k with
      | some w => rfl
      | none => exact hbase

/-- An entry "matches" a dispatch in the sense of the spec: equal method,
and the matcher — when present — is a key/value subset of the params.
(An empty matcher dict is falsy in Python and skips the subset test, but
the empty dict is a subset of everything, so the two readings agree.) -/
def entryAccepts {V R : Type} [BEq V] (e : MockEntry V R) (method : String)
    (params : List (String × V)) : Bool :=
  e.method == method
    && (match e.matcher with
        | none => true
        | some m => is_subset m params)

theorem queryScan_cons {V R : Type} [BEq V] (e : MockEntry V R)
    (rest : List (MockEntry V R)) (method : String)
    (params : List (String × V)) :
    queryScan method params (e :: rest)
      = if entryAccepts e method params then
          (if truthyDict e.error then
            QueryOutcome.mockError (pvLookup (e.error.getD []) "message")
          else QueryOutcome.ok e.result)
        else queryScan method params rest := by
  cases hm : e.method == method with
  | false => simp [queryScan, entryAccepts, bne, hm]
  | true =>
    cases hmt : e.matcher with
    | none => simp [queryScan, entryAccepts, truthyDict, bne, hm, hmt]
    | some m =>
      cases m with
      | nil => simp [queryScan, entryAccepts, truthyDict, is_subset, bne, hm, hmt]
      | cons kv mrest =>
        cases hs : is_subset (kv :: mrest) params <;>
          simp [queryScan, entryAccepts, truthyDict, bne, hm, hmt, hs]

/-- **C4.** If some registered entry matches the dispatched
`(method, params)` — equal method, matcher (when present) a key/value
subset of the params — then `query`'s scan settles on the *first* such
entry in registration order, returning its result, or raising a mock
error carrying the entry's `message` when the entry carries an error
dict; if no registered entry matches, the scan raises the
"no mock response registered" error carrying the requested method and
params verbatim. -/
theorem c4_dispatch_first_match {V R : Type} [BEq V]
    (entries : List (MockEntry V R)) (method : String)
    (params : List (String × V)) :
    (∀ e, entries.find? (fun e2 => entryAccepts e2 method params) = some e →
        queryScan method params entries
          = if truthyDict e.error then
              QueryOutcome.mockError (pvLookup (e.error.getD []) "message")
            else QueryOutcome.ok e.result)
    ∧ (entries.find? (fun e2 => entryAccepts e2 method params) = none →
        queryScan method params entries
          = QueryOutcome.noMock method params) := by
  induction entries with
  | nil =>
    refine ⟨fun e h => ?_, fun _ => rfl⟩
    simp at h
  | cons hd tl ih =>
    by_cases ha : entryAccepts hd method params
    · have hfind :
          List.find? (fun e2 => entryAccepts e2 method params) (hd :: tl)
            = some hd :=
        List.find?_cons_of_pos tl ha
      refine ⟨fun e h => ?_, fun h => ?_⟩
      · rw [hfind] at h
        injection h with h
        subst h
        rw [queryScan_cons, if_pos ha]
      · rw [hfind] at h
        cases h
    · have hfind :
          List.find? (fun e2 => entryAccepts e2 method params) (hd :: tl)
            = List.find? (fun e2 => entryAccepts e2 method params) tl :=
        List.find?_cons_of_neg tl ha
      refine ⟨fun e h => ?_, fun h => ?_⟩
      · rw [hfind] at h
        rw [queryScan_cons, if_neg (by simpa using ha)]
        exact ih.1 e h
      · rw [hfind] at h
        rw [queryScan_cons, if_neg (by simpa using ha)]
        exact ih.2 h

/-- Witness for C4: a registry with an entry whose matcher is satisfied
(first in registration order wins) and a dispatch no entry matches. -/
theorem c4_dispatch_first_match_witness :
    queryScan "query" [("a", "1"), ("b", "2")]
        [(⟨"query", "r1", some [("a", "1")], none⟩ : MockEntry String String),
         ⟨"query", "r2", none, none⟩]
      = QueryOutcome.ok "r1"
    ∧ queryScan "other" ([] : List (String × String))
        [(⟨"query", "r1", some [("a", "1")], none⟩ : MockEntry String String),
         ⟨"query", "r2", none, none⟩]
      = QueryOutcome.noMock "other" [] :=
  ⟨(c4_dispatch_first_match
      [⟨"query", "r1", some [("a", "1")], none⟩, ⟨"query", "r2", none, none⟩]
      "query" [("a", "1"), ("b", "2")]).1
      ⟨"query", "r1", some [("a", "1")], none⟩ rfl,
   (c4_dispatch_first_match
      [⟨"query", "r1", some [("a", "1")], none⟩, ⟨"query", "r2", none, none⟩]
      "other" []).2 rfl⟩

/-- Witness for C2 (amended): an override mapping that does not touch the
three keys leaves the computed `NEAR_ENV` in place. -/
theorem c2_env_amended_witness :
    denvGet
      (run_near_cli_env [("PATH", "/usr/bin")] "http://localhost:3030"
        "/tmp/near-home" (some [("FOO", "bar")]))
      "NEAR_ENV" = some "localnet" :=
  c2_env_amended [("PATH", "/usr/bin")] "http://localhost:3030"
    "/tmp/near-home" (some [("FOO", "bar")]) "NEAR_ENV" "localnet"
    (by decide)

/-- **C8.** `add_account("alice.near", balance_near=50.0)` then
`dispatch("query", {request_type: "view_account", account_id:
"alice.near", finality: "final"})` returns the registered record, but its
`amount` field is `str(int(50.0 * 1e24)) = "50000000000000002382364672"`:
the float conversion at `near_testing.py` line 204 (`1e24` is not exactly
representable in binary64) does not produce the claimed
`"50000000000000000000000000"` (50 × 10²⁴). -/
theorem c8_add_account_amount_eval :
    (MockRPC.query
        (MockRPC.add_account ⟨[], []⟩ "alice.near" ⟨50, 0⟩ 182
          "11111111111111111111111111111111" "0")
        "query"
        [("request_type", PyVal.s "view_account"),
         ("account_id", PyVal.s "alice.near"),
         ("finality", PyVal.s "final")]).2
      = QueryOutcome.ok
          [("amount", PyVal.s "50000000000000002382364672"),
           ("locked", PyVal.s "0"),
           ("code_hash", PyVal.s "11111111111111111111111111111111"),
           ("storage_usage", PyVal.i 182),
           ("block_height", PyVal.i 100000000),
           ("block_hash", PyVal.s "mock_block_hash")]
    ∧ ("50000000000000002382364672" : String)
        ≠ "50000000000000000000000000" := by
  decide

/-- **C1 counterexample.** The claim says that when deploy exits 0 and
the init call fails, `deploy` returns the init call's parsed result with
`status = "failure"`.  But when the init command exits non-zero,
`deploy` raises `ContractDeployError` (`near_testing.py` lines 671-675)
and returns nothing at all. -/
theorem c1_deploy_init_counterexample :
    ContractDeployer.deploy (fun _ => none) true "app.test.near"
        (some "new") [] "0" "300000000000000"
        ⟨0, "ok", ""⟩ ⟨1, "", "error: init panicked"⟩
      = Except.error (DeployError.initFailed "new" "error: init panicked") :=
  rfl

/-- **C1 (amended).** With `initMethod` given, when the deploy command
exits 0 and the init command also exits 0 but its parsed output reads as
a failure, `deploy` returns the parsed result of the init call — status
`"failure"`, the deploy step's own success never surfaced; when the init
command exits non-zero, `deploy` instead raises `ContractDeployError`. -/
theorem c1_deploy_init_result_amended
    (jp : String → Option (List (String × JVal)))
    (account_id : String) (init_method : Option String)
    (iargs : List (String × JVal)) (idep igas : String)
    (deployRes initRes : CompletedProcess)
    (hd : deployRes.returncode = 0)
    (hm : truthyStr init_method = true)
    (hi : initRes.returncode = 0)
    (hf : (parse_cli_output jp initRes.stdout initRes.stderr).status
        = "failure") :
    ContractDeployer.deploy jp true account_id init_method iargs idep igas
        deployRes initRes
      = Except.ok (parse_cli_output jp initRes.stdout initRes.stderr)
    ∧ (parse_cli_output jp initRes.stdout initRes.stderr).status
        = "failure" := by
  refine ⟨?_, hf⟩
  simp [ContractDeployer.deploy, hd, hm, hi]

/-- Witness for C1 (amended): init exits 0 with output the heuristics
read as failure. -/
theorem c1_deploy_init_result_amended_witness :
    ContractDeployer.deploy (fun _ => none) true "app.test.near"
        (some "new") [] "0" "300000000000000"
        ⟨0, "ok", ""⟩ ⟨0, "", "error: init panicked"⟩
      = Except.ok (parse_cli_output (fun _ => none) "" "error: init panicked")
    ∧ (parse_cli_output (fun _ => none) "" "error: init panicked").status
        = "failure" :=
  c1_deploy_init_result_amended (fun _ => none) "app.test.near"
    (some "new") [] "0" "300000000000000"
    ⟨0, "ok", ""⟩ ⟨0, "", "error: init panicked"⟩
    rfl (by decide) rfl (by decide)

/-- The 44-character alphanumeric token a line contributes to the hash
scan, if any: only lines containing a marker phrase contribute, and they
contribute their first 44-character alphanumeric whitespace-token. -/
def markerHashToken (line : String) : Option String :=
  let stripped := pyStrip line
  if containsSubstr stripped "Transaction Id"
      || containsSubstr stripped "transaction_hash" then
    (pySplitWs stripped).find? is44Alnum
  else none

theorem getLast?_cons_getD {α : Type} (t : α) (xs : List α) (d : α) :
    ((t :: xs).getLast?).getD d = (xs.getLast?).getD t := by
  induction xs generalizing t d with
  | nil => rfl
  | cons x xs ih =>
    rw [List.getLast?_cons_cons, ih x d, ih x t]

theorem foldl_parseLine_tx_hash
    (jp : String → Option (List (String × JVal)))
    (lines : List String) (st : ParseState)
    (h : ∀ l ∈ lines, pyStartsWith (pyStrip l) "\x7b" = false) :
    (lines.foldl (parseLine jp) st).tx_hash
      = ((lines.filterMap markerHashToken).getLast?).getD st.tx_hash := by
  induction lines generalizing st with
  | nil => simp
  | cons l rest ih =>
    have hl : pyStartsWith (pyStrip l) "\x7b" = false := h l (by simp)
    have hrest : ∀ l2 ∈ rest, pyStartsWith (pyStrip l2) "\x7b" = false :=
      fun l2 hl2 => h l2 (by simp [hl2])
    have key : (parseLine jp st l).tx_hash
        = match markerHashToken l with
          | some part => part
          | none => st.tx_hash := by
      simp only [parseLine, markerHashToken, hl]
      by_cases hc : (containsSubstr (pyStrip l) "Transaction Id"
          || containsSubstr (pyStrip l) "transaction_hash") = true
      · simp only [hc, if_true]
        cases hf : (pySplitWs (pyStrip l)).find? is44Alnum <;>
          by_cases hlog : (pyStartsWith (pyStrip l) "Log ["
              || pyStartsWith (pyStrip l) "Receipt:") = true <;>
            simp [hlog, hf]
      · rw [Bool.not_eq_true] at hc
        simp only [hc, Bool.false_eq_true, if_false]
        by_cases hlog : (pyStartsWith (pyStrip l) "Log ["
            || pyStartsWith (pyStrip l) "Receipt:") = true <;>
          simp [hlog]
    rw [List.foldl_cons, ih (parseLine jp st l) hrest, List.filterMap_cons]
    cases mt : markerHashToken l with
    | none => rw [key, mt]
    | some t =>
      rw [key, mt, getLast?_cons_getD]

/-- **C10 counterexample.** The claim says a 44-character alphanumeric
token standing alone on its own line becomes the hash.  The code only
inspects lines containing a marker phrase (`near_testing.py` lines
994-999), so a standalone token yields an empty hash. -/
theorem c10_hash_counterexample :
    (parse_cli_output (fun _ => none)
        "AAAAAAAAAAAAAAAAAAAAAAAAAAAAAAAAAAAAAAAAAAAA" "").transaction_hash
      = ""
    ∧ is44Alnum "AAAAAAAAAAAAAAAAAAAAAAAAAAAAAAAAAAAAAAAAAAAA" = true
    ∧ ("" : String) ≠ "AAAAAAAAAAAAAAAAAAAAAAAAAAAAAAAAAAAAAAAAAAAA" := by
  decide

/-- **C10 (amended).** On output none of whose (stripped) lines starts
with `{`, the hash is the first 44-character alphanumeric token of the
*last* line that contains a recognized marker phrase and carries such a
token (empty when there is none): each marker line overwrites the
previous value, and tokens standing alone on unmarked lines are never
picked up.  (A `{`-line can additionally fill a still-empty hash from
the structured `transaction.hash` field.) -/
theorem c10_hash_amended (jp : String → Option (List (String × JVal)))
    (stdout stderr : String)
    (h : ∀ l ∈ splitLines (stdout ++ "\n" ++ stderr),
        pyStartsWith (pyStrip l) "\x7b" = false) :
    (parse_cli_output jp stdout stderr).transaction_hash
      = (((splitLines (stdout ++ "\n" ++ stderr)).filterMap
          markerHashToken).getLast?).getD "" := by
  have := foldl_parseLine_tx_hash jp
    (splitLines (stdout ++ "\n" ++ stderr)) ⟨"", "success", [], []⟩ h
  simpa [parse_cli_output] using this

/-- Witness for C10 (amended): two marker lines — the last one's token
wins. -/
theorem c10_hash_amended_witness :
    (parse_cli_output (fun _ => none)
        (String.append
          "Transaction Id AAAAAAAAAAAAAAAAAAAAAAAAAAAAAAAAAAAAAAAAAAAA\n"
          "Transaction Id BBBBBBBBBBBBBBBBBBBBBBBBBBBBBBBBBBBBBBBBBBBB")
        "").transaction_hash
      = "BBBBBBBBBBBBBBBBBBBBBBBBBBBBBBBBBBBBBBBBBBBB" :=
  (c10_hash_amended (fun _ => none)
    (String.append
      "Transaction Id AAAAAAAAAAAAAAAAAAAAAAAAAAAAAAAAAAAAAAAAAAAA\n"
      "Transaction Id BBBBBBBBBBBBBBBBBBBBBBBBBBBBBBBBBBBBBBBBBBBB")
    "" (by decide)).trans (by decide)

end NearTesting
